import Mathlib

/-!
Shallow embedding of the core logic of `dairy_temperature_app.py`
(dairy facility temperature-monitoring application).

The SQLite tables `products`, `rooms` and `sensor_data` are modelled as
lists of records inside a `DB` structure; REAL columns become `ℚ`.
The helper functions `add_product`, `update_room`, `get_all_rooms`,
`RoomSensor.update_sensor_data`, `recommend_temperature` and
`check_for_alerts` are translated line by line.  The random perturbations
drawn by `random.uniform` in `update_sensor_data` are passed in as explicit
delta arguments; alert strings built with f-strings are abstracted to an
`Alert` constructor carrying the same numeric payload (the textual rendering
is presentation only).  Timestamps are dropped: no claim depends on them.
-/

/-- A row of the `products` table:
`(id, name, min_temp, max_temp, humidity, shelf_life)`. -/
structure Product where
  id : Nat
  name : String
  min_temp : ℚ
  max_temp : ℚ
  humidity : ℚ
  shelf_life : Int
  deriving Repr, DecidableEq

/-- A row of the `rooms` table:
`(id, name, current_temp, target_temp, humidity, current_product_id)`.
`current_product_id` is a nullable foreign key into `products`. -/
structure Room where
  id : Nat
  name : String
  current_temp : ℚ
  target_temp : ℚ
  humidity : ℚ
  current_product_id : Option Nat
  deriving Repr, DecidableEq

/-- A row of the `sensor_data` table: `(room_id, temperature, humidity)`. -/
structure SensorSample where
  room_id : Nat
  temperature : ℚ
  humidity : ℚ
  deriving Repr, DecidableEq

/-- The mutable state held in `dairy_temperature.db`, restricted to the
tables the core logic touches. -/
structure DB where
  products : List Product
  rooms : List Room
  sensor_data : List SensorSample
  deriving Repr, DecidableEq

/-- `SELECT ... FROM products WHERE name = ?` followed by `fetchone`
(`get_product_by_name`). -/
def get_product_by_name (db : DB) (name : String) : Option Product :=
  db.products.find? (fun p => p.name == name)

/-- `SELECT ... FROM rooms WHERE id = ?` followed by `fetchone`. -/
def find_room (db : DB) (room_id : Nat) : Option Room :=
  db.rooms.find? (fun r => r.id == room_id)

/-- `SELECT ... FROM products WHERE id = ?` followed by `fetchone`. -/
def find_product (db : DB) (pid : Nat) : Option Product :=
  db.products.find? (fun p => p.id == pid)

/-- `get_all_rooms`: `SELECT id, name, current_temp, target_temp, humidity,
current_product_id FROM rooms`. -/
def get_all_rooms (db : DB) : List Room :=
  db.rooms

/-- Fresh AUTOINCREMENT id for the `products` table. -/
def next_product_id (db : DB) : Nat :=
  db.products.foldr (fun p m => max m p.id) 0 + 1

/-- `add_product(name, min_temp, max_temp, humidity, shelf_life)`.
The `INSERT` raises `sqlite3.IntegrityError` exactly when the UNIQUE
constraint on `products.name` is violated; the function catches it and
returns `False`.  On success it returns `True`.  No other validation is
performed by the source. -/
def add_product (db : DB) (name : String) (min_temp max_temp humidity : ℚ)
    (shelf_life : Int) : Bool × DB :=
  if db.products.any (fun p => p.name == name) then
    (false, db)
  else
    (true, { db with
      products := db.products ++
        [⟨next_product_id db, name, min_temp, max_temp, humidity, shelf_life⟩] })

/-- `update_room(room_id, target_temp=None, current_product_id=None)`.
In the source, `None` is the "do not update this column" sentinel:
each `UPDATE` statement runs only under `if <arg> is not None`. -/
def update_room (db : DB) (room_id : Nat) (target_temp : Option ℚ)
    (current_product_id : Option Nat) : DB :=
  let db1 :=
    match target_temp with
    | some t =>
        { db with rooms := db.rooms.map (fun r =>
            if r.id == room_id then { r with target_temp := t } else r) }
    | none => db
  match current_product_id with
  | some pid =>
      { db1 with rooms := db1.rooms.map (fun r =>
          if r.id == room_id then { r with current_product_id := some pid } else r) }
  | none => db1

/-- `RoomSensor.update_sensor_data`.  The two `random.uniform` draws are
passed in as `dt` (drawn from `[-0.2, 0.2]`) and `dh` (drawn from
`[-1, 1]`); the bounds are hypotheses of the theorems, not baked in here.
Returns the `(new_temp, new_humidity)` pair the method returns (timestamp
dropped), or `none` when the room id does not resolve, in which case the
database is untouched. -/
def update_sensor_data (db : DB) (room_id : Nat) (dt dh : ℚ) :
    Option (ℚ × ℚ) × DB :=
  match find_room db room_id with
  | some room =>
      let new_temp := room.current_temp + dt
      let new_humidity := room.humidity + dh
      (some (new_temp, new_humidity),
        { db with
          rooms := db.rooms.map (fun r =>
            if r.id == room_id then
              { r with current_temp := new_temp, humidity := new_humidity }
            else r),
          sensor_data := db.sensor_data ++ [⟨room_id, new_temp, new_humidity⟩] })
  | none => (none, db)

/-- `recommend_temperature(product, external_temp)`.  In the source,
`product` is a tuple whose slots 2 and 3 are `min_temp` and `max_temp`;
`if not product: return None` becomes the `none` case. -/
def recommend_temperature (product : Option Product) (external_temp : ℚ) :
    Option ℚ :=
  match product with
  | none => none
  | some p =>
      if external_temp > 30 then
        some (max p.min_temp ((p.min_temp + p.max_temp) / 2 - 1))
      else if external_temp < 10 then
        some (min p.max_temp ((p.min_temp + p.max_temp) / 2 + 1))
      else
        some ((p.min_temp + p.max_temp) / 2)

/-- One alert emitted by `check_for_alerts`.  Each constructor stands for
the f-string the source appends, carrying the same numeric payload. -/
inductive Alert where
  | lowTemp (current_temp min_temp : ℚ)
  | highTemp (current_temp max_temp : ℚ)
  | humidityDev (current_humidity ideal_humidity : ℚ)
  | manualOverride
  deriving Repr, DecidableEq

/-- The row produced by the `LEFT JOIN` query in `check_for_alerts`:
`SELECT r.current_temp, r.humidity, r.target_temp, p.min_temp, p.max_temp,
p.humidity FROM rooms r LEFT JOIN products p ON r.current_product_id = p.id
WHERE r.id = ?` followed by `fetchone`.  A room with no product assignment,
or a dangling product reference, yields NULLs in the product columns. -/
def room_alert_row (db : DB) (room_id : Nat) :
    Option (ℚ × ℚ × ℚ × Option ℚ × Option ℚ × Option ℚ) :=
  (find_room db room_id).map (fun r =>
    match r.current_product_id.bind (find_product db) with
    | some p =>
        (r.current_temp, r.humidity, r.target_temp,
          some p.min_temp, some p.max_temp, some p.humidity)
    | none => (r.current_temp, r.humidity, r.target_temp, none, none, none))

/-- `check_for_alerts`, as a function of the database, the session's
`current_room_id` and the session's `manual_override` flag.  Mirrors the
source: an empty list, three conditional appends guarded by
`if room_data:`, then the unconditional manual-override check. -/
def check_for_alerts (db : DB) (room_id : Nat) (manual_override : Bool) :
    List Alert :=
  let alerts : List Alert := []
  let alerts :=
    match room_alert_row db room_id with
    | none => alerts
    | some (current_temp, current_humidity, _target_temp, min?, max?, ideal?) =>
        let alerts :=
          match min? with
          | some min_temp =>
              if current_temp < min_temp then
                alerts ++ [Alert.lowTemp current_temp min_temp]
              else alerts
          | none => alerts
        let alerts :=
          match max? with
          | some max_temp =>
              if current_temp > max_temp then
                alerts ++ [Alert.highTemp current_temp max_temp]
              else alerts
          | none => alerts
        match ideal? with
        | some ideal_humidity =>
            if |current_humidity - ideal_humidity| > 10 then
              alerts ++ [Alert.humidityDev current_humidity ideal_humidity]
            else alerts
        | none => alerts
  if manual_override then alerts ++ [Alert.manualOverride] else alerts

/-- The seed data inserted by `init_db` into an empty database. -/
def seedDB : DB where
  products :=
    [⟨1, "Milk", 2, 4, 70, 5⟩,
     ⟨2, "Curd", 2, 4, 75, 7⟩,
     ⟨3, "Butter", -15, -10, 80, 90⟩,
     ⟨4, "Cheese", 1, 4, 85, 30⟩,
     ⟨5, "Ice Cream", -25, -18, 70, 365⟩]
  rooms :=
    [⟨1, "Room 1", 4, 4, 70, none⟩,
     ⟨2, "Room 2", 4, 4, 70, none⟩,
     ⟨3, "Freezer 1", -18, -18, 70, none⟩]
  sensor_data := []

/-- Seed database with "Room 1" re-seeded to the state used in the spec's
alert-ordering example: current temperature 1 °C, humidity 60 %, product
"Curd" (range 2–4 °C, ideal humidity 75 %) assigned. -/
def exampleDB : DB :=
  { seedDB with rooms := [⟨1, "Room 1", 1, 4, 60, some 2⟩] }

theorem find?_map_ite (rooms : List Room) (room_id : Nat) (g : Room → Room)
    (hg : ∀ r, (g r).id = r.id) :
    (rooms.map (fun r => if r.id == room_id then g r else r)).find?
        (fun r => r.id == room_id)
      = (rooms.find? (fun r => r.id == room_id)).map g := by
  rw [List.find?_map]
  have hpf : ((fun r : Room => r.id == room_id) ∘
      fun r => if r.id == room_id then g r else r)
      = fun r : Room => r.id == room_id := by
    funext r
    by_cases h : r.id = room_id
    · simp [h, hg]
    · simp [h]
  rw [hpf]
  cases hfind : rooms.find? (fun r => r.id == room_id) with
  | none => rfl
  | some r =>
    have hp := List.find?_some hfind
    have hr : r.id = room_id := by simpa using hp
    simp [hr]

theorem find_room_map (db : DB) (room_id : Nat)
    (ps : List Product) (ss : List SensorSample) (g : Room → Room)
    (hg : ∀ r, (g r).id = r.id) :
    find_room
        ⟨ps, db.rooms.map (fun r => if r.id == room_id then g r else r), ss⟩
        room_id
      = (find_room db room_id).map g :=
  find?_map_ite db.rooms room_id g hg

/-- C1: for every product range with `min_temp ≤ max_temp` and every
external temperature, `recommend_temperature` returns
`max(min_temp, midpoint - 1)` when `external_temp > 30`,
`min(max_temp, midpoint + 1)` when `external_temp < 10`, and the exact
midpoint `(min_temp + max_temp) / 2` otherwise; in particular the
boundary values 30 and 10 both fall into the midpoint branch. -/
theorem recommend_three_band (p : Product) (external_temp : ℚ)
    (_hrange : p.min_temp ≤ p.max_temp) :
    (external_temp > 30 →
      recommend_temperature (some p) external_temp
        = some (max p.min_temp ((p.min_temp + p.max_temp) / 2 - 1))) ∧
    (external_temp < 10 →
      recommend_temperature (some p) external_temp
        = some (min p.max_temp ((p.min_temp + p.max_temp) / 2 + 1))) ∧
    (10 ≤ external_temp → external_temp ≤ 30 →
      recommend_temperature (some p) external_temp
        = some ((p.min_temp + p.max_temp) / 2)) ∧
    recommend_temperature (some p) 30 = some ((p.min_temp + p.max_temp) / 2) ∧
    recommend_temperature (some p) 10 = some ((p.min_temp + p.max_temp) / 2) := by
  refine ⟨fun h1 => ?_, fun h2 => ?_, fun h3 h4 => ?_, ?_, ?_⟩
  · simp [recommend_temperature, h1]
  · have n1 : ¬ external_temp > 30 := by linarith
    simp [recommend_temperature, n1, h2]
  · have n1 : ¬ external_temp > 30 := by linarith
    have n2 : ¬ external_temp < 10 := by linarith
    simp [recommend_temperature, n1, n2]
  · norm_num [recommend_temperature]
  · norm_num [recommend_temperature]

/-- Witness for C1: the Milk range (2, 4) satisfies the hypothesis, and at
external temperature 35 the hot branch yields `max 2 (3 - 1) = 2`. -/
theorem recommend_three_band_witness :
    ((2 : ℚ) ≤ 4) ∧
    recommend_temperature (some ⟨1, "Milk", 2, 4, 70, 5⟩) 35 = some 2 := by
  refine ⟨by norm_num, ?_⟩
  have h := (recommend_three_band ⟨1, "Milk", 2, 4, 70, 5⟩ 35 (by norm_num)).1
    (by norm_num)
  rw [h]
  norm_num

/-- C2: when the alert query resolves the room and its product, every
applicable alert fires, in the fixed order low-temperature,
high-temperature, humidity-deviation, then the manual-override notice;
no alert suppresses another.  Moreover on the spec's worked example
(temperature 1, range (2, 4), humidity 60, ideal 75, override on) the
result is exactly [low-temp, humidity-deviation, override-notice]. -/
theorem check_for_alerts_fixed_order (db : DB) (room_id : Nat)
    (manual_override : Bool) (t h tt mn mx ih : ℚ)
    (hrow : room_alert_row db room_id
      = some (t, h, tt, some mn, some mx, some ih)) :
    (check_for_alerts db room_id manual_override
      = (if t < mn then [Alert.lowTemp t mn] else [])
        ++ (if t > mx then [Alert.highTemp t mx] else [])
        ++ (if |h - ih| > 10 then [Alert.humidityDev h ih] else [])
        ++ (if manual_override then [Alert.manualOverride] else [])) ∧
    check_for_alerts exampleDB 1 true
      = [Alert.lowTemp 1 2, Alert.humidityDev 60 75, Alert.manualOverride] := by
  constructor
  · simp only [check_for_alerts, hrow]
    by_cases h1 : t < mn <;> by_cases h2 : t > mx <;>
      by_cases h3 : |h - ih| > 10 <;> cases manual_override <;>
        simp [h1, h2, h3]
  · have hrow2 : room_alert_row exampleDB 1
        = some (1, 60, 4, some 2, some 4, some 75) := rfl
    have c1 : (1 : ℚ) < 2 := by norm_num
    have c2 : ¬ (1 : ℚ) > 4 := by norm_num
    have c3 : |(60 : ℚ) - 75| > 10 := by norm_num
    simp [check_for_alerts, hrow2, c1, c2, c3]

/-- Witness for C2: `exampleDB`'s alert row resolves with range (2, 4) and
ideal humidity 75, and the general equation evaluates there. -/
theorem check_for_alerts_fixed_order_witness :
    room_alert_row exampleDB 1 = some (1, 60, 4, some 2, some 4, some 75) ∧
    check_for_alerts exampleDB 1 true
      = (if (1 : ℚ) < 2 then [Alert.lowTemp 1 2] else [])
        ++ (if (1 : ℚ) > 4 then [Alert.highTemp 1 4] else [])
        ++ (if |(60 : ℚ) - 75| > 10 then [Alert.humidityDev 60 75] else [])
        ++ (if (true : Bool) then [Alert.manualOverride] else []) :=
  ⟨rfl, (check_for_alerts_fixed_order exampleDB 1 true 1 60 4 2 4 75 rfl).1⟩

/-- C5: for a room with no assigned product and the override off, the
alert evaluator returns the empty list whatever the room's temperature
and humidity are: absent range and ideal-humidity data skip the checks
rather than counting as violations. -/
theorem check_for_alerts_no_product (db : DB) (room_id : Nat) (r : Room)
    (hr : find_room db room_id = some r)
    (hp : r.current_product_id = none) :
    check_for_alerts db room_id false = [] := by
  simp [check_for_alerts, room_alert_row, hr, hp]

/-- Witness for C5: seed "Room 1" has no product assigned and produces no
alerts with the override off. -/
theorem check_for_alerts_no_product_witness :
    find_room seedDB 1 = some ⟨1, "Room 1", 4, 4, 70, none⟩ ∧
    check_for_alerts seedDB 1 false = [] :=
  ⟨by decide,
    check_for_alerts_no_product seedDB 1 ⟨1, "Room 1", 4, 4, 70, none⟩
      (by decide) rfl⟩

/-- C10: when the room id does not resolve to any room record, the
temperature and humidity checks are skipped, but the manual-override
notice still fires: with the override on the result is exactly the single
override notice, with it off the empty list. -/
theorem check_for_alerts_missing_room (db : DB) (room_id : Nat)
    (hmiss : find_room db room_id = none) :
    check_for_alerts db room_id true = [Alert.manualOverride] ∧
    check_for_alerts db room_id false = [] := by
  constructor <;> simp [check_for_alerts, room_alert_row, hmiss]

/-- Witness for C10: room id 99 does not exist in the seed database. -/
theorem check_for_alerts_missing_room_witness :
    find_room seedDB 99 = none ∧
    (check_for_alerts seedDB 99 true = [Alert.manualOverride] ∧
      check_for_alerts seedDB 99 false = []) :=
  ⟨by decide, check_for_alerts_missing_room seedDB 99 (by decide)⟩

/-- C3 (code-bug evidence): `add_product` performs no range validation.
A product with `min_temp = 10 > 5 = max_temp` is accepted — the call
returns `True` and the inverted-range record is created in the catalog —
whereas the spec requires such a creation to be rejected. -/
theorem add_product_accepts_inverted_range :
    (add_product seedDB "Broken" 10 5 70 7).1 = true ∧
    get_product_by_name (add_product seedDB "Broken" 10 5 70 7).2 "Broken"
      = some ⟨6, "Broken", 10, 5, 70, 7⟩ ∧
    (10 : ℚ) > 5 :=
  ⟨by decide, by decide, by norm_num⟩

/-- C4 (counterexample): passing `None` for the product reference does not
clear it — in `update_room`, `None` is the "do not update this column"
sentinel.  On `exampleDB`, room 1 has product 2 assigned; after
`update_room(1, current_product_id=None)` the room still exists unchanged
and its reference is still `some 2`, not cleared to `none` as the claim
requires. -/
theorem update_room_none_counterexample :
    find_room (update_room exampleDB 1 none none) 1
      = some ⟨1, "Room 1", 1, 4, 60, some 2⟩ ∧
    ¬ (find_room (update_room exampleDB 1 none none) 1).map
        Room.current_product_id = some none :=
  ⟨by decide, by decide⟩

/-- C4 (amended): for an existing room, assigning a product reference
`pid` and reading the room back yields `some pid` (round-trip); calling
`update_room` with `None` for the product reference is a no-op that
leaves the room record — its product reference included — unchanged,
and the room still exists.  (`None` is the "do not update" sentinel; the
source offers no way to clear the reference through `update_room`.) -/
theorem update_room_assign_round_trip (db : DB) (room_id pid : Nat) (r : Room)
    (hr : find_room db room_id = some r) :
    (find_room (update_room db room_id none (some pid)) room_id).map
        Room.current_product_id = some (some pid) ∧
    find_room (update_room db room_id none none) room_id = some r := by
  constructor
  · show (find_room
        ⟨db.products, db.rooms.map (fun r => if r.id == room_id then
          { r with current_product_id := some pid } else r), db.sensor_data⟩
        room_id).map Room.current_product_id = some (some pid)
    rw [find_room_map db room_id db.products db.sensor_data
      (fun x => { x with current_product_id := some pid }) (fun _ => rfl), hr]
    rfl
  · exact hr

/-- Witness for C4's amended claim: seed "Room 2" exists; assigning the
Butter product (id 3) round-trips, and the `None` call leaves it as it
was. -/
theorem update_room_assign_round_trip_witness :
    find_room seedDB 2 = some ⟨2, "Room 2", 4, 4, 70, none⟩ ∧
    ((find_room (update_room seedDB 2 none (some 3)) 2).map
        Room.current_product_id = some (some 3) ∧
      find_room (update_room seedDB 2 none none) 2
        = some ⟨2, "Room 2", 4, 4, 70, none⟩) :=
  ⟨by decide,
    update_room_assign_round_trip seedDB 2 3 ⟨2, "Room 2", 4, 4, 70, none⟩
      (by decide)⟩

/-- C6: adding a product whose name is already in the catalog returns the
duplicate-name failure (`False`, from the caught `IntegrityError`) and
leaves the whole catalog — the existing record included — unchanged. -/
theorem add_product_duplicate_name (db : DB) (name : String)
    (min_temp max_temp humidity : ℚ) (shelf_life : Int)
    (hdup : db.products.any (fun p => p.name == name) = true) :
    (add_product db name min_temp max_temp humidity shelf_life).1 = false ∧
    (add_product db name min_temp max_temp humidity shelf_life).2 = db := by
  constructor <;> simp [add_product, hdup]

/-- Witness for C6: "Milk" is already in the seed catalog; re-adding it
fails and changes nothing. -/
theorem add_product_duplicate_name_witness :
    seedDB.products.any (fun p => p.name == "Milk") = true ∧
    ((add_product seedDB "Milk" 0 1 2 3).1 = false ∧
      (add_product seedDB "Milk" 0 1 2 3).2 = seedDB) :=
  ⟨by decide, add_product_duplicate_name seedDB "Milk" 0 1 2 3 (by decide)⟩

/-- C7: unresolved references yield explicit absence markers instead of
exceptions: `recommend_temperature` returns `None` when no product is
known, and sampling a room id that does not resolve returns the
not-found marker `(None, None, None)` and leaves the database untouched. -/
theorem absence_markers (db : DB) (room_id : Nat) (external_temp dt dh : ℚ)
    (hmiss : find_room db room_id = none) :
    recommend_temperature none external_temp = none ∧
    update_sensor_data db room_id dt dh = (none, db) := by
  constructor
  · rfl
  · simp [update_sensor_data, hmiss]

/-- Witness for C7: room id 42 does not exist in the seed database. -/
theorem absence_markers_witness :
    find_room seedDB 42 = none ∧
    (recommend_temperature none 20 = none ∧
      update_sensor_data seedDB 42 0 0 = (none, seedDB)) :=
  ⟨by decide, absence_markers seedDB 42 20 0 0 (by decide)⟩

/-- C8: sampling an existing room perturbs the room's previous state by
the drawn deltas: the new temperature is within ±0.2 °C of the previous
`current_temp`, the new humidity within ±1 % of the previous humidity,
the pair becomes the room's new current state, and exactly one sensor
sample carrying the same temperature and humidity is appended to the
history. -/
theorem update_sensor_data_spec (db : DB) (room_id : Nat) (r : Room)
    (dt dh : ℚ) (hr : find_room db room_id = some r)
    (hdt₁ : -(2/10) ≤ dt) (hdt₂ : dt ≤ 2/10)
    (hdh₁ : -1 ≤ dh) (hdh₂ : dh ≤ 1) :
    ∃ nt nh,
      (update_sensor_data db room_id dt dh).1 = some (nt, nh) ∧
      |nt - r.current_temp| ≤ 2/10 ∧ |nh - r.humidity| ≤ 1 ∧
      (find_room (update_sensor_data db room_id dt dh).2 room_id).map
          (fun r2 => (r2.current_temp, r2.humidity)) = some (nt, nh) ∧
      (update_sensor_data db room_id dt dh).2.sensor_data
        = db.sensor_data ++ [⟨room_id, nt, nh⟩] := by
  refine ⟨r.current_temp + dt, r.humidity + dh, ?_, ?_, ?_, ?_, ?_⟩
  · simp [update_sensor_data, hr]
  · have h : r.current_temp + dt - r.current_temp = dt := by ring
    rw [h]
    exact abs_le.mpr ⟨hdt₁, hdt₂⟩
  · have h : r.humidity + dh - r.humidity = dh := by ring
    rw [h]
    exact abs_le.mpr ⟨hdh₁, hdh₂⟩
  · simp only [update_sensor_data, hr]
    have hmap := find_room_map db room_id db.products
      (db.sensor_data ++ [⟨room_id, r.current_temp + dt, r.humidity + dh⟩])
      (fun x =>
        { x with
            current_temp := r.current_temp + dt
            humidity := r.humidity + dh })
      (fun _ => rfl)
    rw [hmap, hr]
    rfl
  · simp [update_sensor_data, hr]

/-- Witness for C8: sampling seed "Room 1" (previous state 4 °C, 70 %)
with deltas 1/10 and 1/2. -/
theorem update_sensor_data_spec_witness :
    find_room seedDB 1 = some ⟨1, "Room 1", 4, 4, 70, none⟩ ∧
    ∃ nt nh,
      (update_sensor_data seedDB 1 (1/10) (1/2)).1 = some (nt, nh) ∧
      |nt - (4 : ℚ)| ≤ 2/10 ∧ |nh - (70 : ℚ)| ≤ 1 ∧
      (find_room (update_sensor_data seedDB 1 (1/10) (1/2)).2 1).map
          (fun r2 => (r2.current_temp, r2.humidity)) = some (nt, nh) ∧
      (update_sensor_data seedDB 1 (1/10) (1/2)).2.sensor_data
        = seedDB.sensor_data ++ [⟨1, nt, nh⟩] :=
  ⟨by decide,
    update_sensor_data_spec seedDB 1 ⟨1, "Room 1", 4, 4, 70, none⟩
      (1/10) (1/2) (by decide) (by norm_num) (by norm_num)
      (by norm_num) (by norm_num)⟩

/-- C9: sampling a room never touches the product catalog: whether or not
the room id resolves, `update_sensor_data` leaves every `products` row
unchanged. -/
theorem update_sensor_data_preserves_products (db : DB) (room_id : Nat)
    (dt dh : ℚ) :
    (update_sensor_data db room_id dt dh).2.products = db.products := by
  cases hfind : find_room db room_id <;> simp [update_sensor_data, hfind]
